import Mathlib

/-!
Shallow embedding of the fuzion-server authentication controller
(src/controllers/user.controller.js) together with the mongoose user model
and the token utilities it relies on.

JavaScript values that matter to the control flow (request-body fields that
can be undefined, OTP fields that can be a number, null or undefined) are
modelled explicitly; randomness, the clock and the mail collaborator are
supplied through an environment record.  Every operation returns the
resulting persistent state next to its outcome, so that atomicity claims
can be stated about the state left behind by a failing step.
-/

namespace Fuzion

/-- JavaScript runtime values, as far as the controller's OTP fields and
request bodies need them: a number, a string, null or undefined.  The
strict (type-sensitive) comparisons the controller performs on these
values coincide with structural equality on this type. -/
inductive JVal where
  | num (n : Nat)
  | str (s : String)
  | null
  | undef
deriving DecidableEq, Repr

/-- The comparison `expiry < Date.now()` on a stored expiry field:
a numeric date compares numerically, JS coerces null to 0 (hence always
expired once now is positive), and undefined coerces to NaN, whose every
comparison is false. -/
def jsDateLt (d : JVal) (now : Nat) : Bool :=
  match d with
  | .num e => e < now
  | .null => 0 < now
  | .undef => false
  | .str _ => false

/-- Equality matching of one field inside a MongoDB filter document, as the
driver sees it: an undefined filter value is stripped from the filter (the
field is not constrained at all), a null filter value matches both null and
missing fields, and any other value matches by strict equality. -/
def mongoMatch (stored filterVal : JVal) : Bool :=
  match filterVal with
  | .undef => true
  | .null => stored == JVal.null || stored == JVal.undef
  | v => stored == v

/-- Payload of a signed token: the workflow tokens carry `{ data: email }`,
the access token carries `{ _id, email, username, fullName }` and the
refresh token carries `{ _id }` (user.model.js, generateAccessToken /
generateRefreshToken). -/
inductive Payload where
  | emailData (email : String)
  | accessP (id : Nat) (email username fullName : String)
  | refreshP (id : Nat)
deriving DecidableEq, Repr

/-- A signed JWT: secret used for the signature, payload, and expiry
instant.  Two tokens are the same string exactly when secret, payload and
expiry coincide, so structural equality models the textual comparison
`incomingRefreshToken !== user.refreshToken`. -/
structure Token where
  secret : String
  payload : Payload
  exp : Nat
deriving DecidableEq, Repr

/-- Modelled from the spec: environment-configured secret used by
utils/jwt.js (the file is not among the sources).  All five workflow call
sites invoke generateToken(data) with no purpose argument, so one single
secret serves every workflow token. -/
def jwtSecret : String := "JWT_TOKEN_SECRET"

/-- Modelled from the spec: ACCESS_TOKEN_SECRET environment value. -/
def accessSecret : String := "ACCESS_TOKEN_SECRET"

/-- Modelled from the spec: REFRESH_TOKEN_SECRET environment value. -/
def refreshSecret : String := "REFRESH_TOKEN_SECRET"

/-- Lifetime of the workflow tokens, ~20 minutes, matching the 20*60*1000
cookie maxAge used at every workflow call site. -/
def workflowTtl : Nat := 20 * 60 * 1000

/-- Modelled from the spec: ACCESS_TOKEN_EXPIRY (short-lived). -/
def accessTtl : Nat := 24 * 60 * 60 * 1000

/-- Modelled from the spec: REFRESH_TOKEN_EXPIRY (longer-lived). -/
def refreshTtl : Nat := 10 * 24 * 60 * 60 * 1000

/-- Ambient data of one request: the clock, the random draw feeding
Math.random, and whether the outbound mail collaborator succeeds. -/
structure Env where
  now : Nat
  rand : Nat
  mailOk : Bool
deriving DecidableEq, Repr

/-- The draw `Math.floor(Math.random() * 900000) + 100000`: a six-digit code in
100000..999999, driven by the environment's random draw. -/
def genOtp (env : Env) : Nat := env.rand % 900000 + 100000

/-- Modelled from the spec: the bcrypt password hasher (salted one-way
function, fixed cost 10).  Modelled as an injective tagging so that
comparison succeeds exactly on the hashed plaintext. -/
def bcryptHash (p : String) : String := "bcrypt$2b$10$" ++ p

/-- Modelled from the spec: bcrypt.compare, true exactly when the digest is
the hash of the plaintext. -/
def bcryptCompare (p digest : String) : Bool := digest == bcryptHash p

/-- A structured failure as thrown through ApiError / the express error
middleware: numeric status plus message. -/
structure ApiErr where
  status : Nat
  msg : String
deriving DecidableEq, Repr

/-- A stored User document (models/user.model.js).  OTP fields and their
expiries are JS values since the controller writes numbers and nulls into
them and compares them with strict (in)equality. -/
structure User where
  id : Nat
  username : String
  email : String
  fullName : String
  bio : String
  avatar : String
  coverImage : String
  password : String
  refreshToken : Option Token
  forgotPasswordOTP : JVal
  forgotPasswordOtpExpiry : JVal
  updateEmailOTP : JVal
  updateEmailOTPExpiry : JVal
deriving DecidableEq, Repr

/-- Modelled from the spec: a PendingRegistration document
(models/registration.model.js is not among the sources): keyed by email,
holding the registration OTP once it has been stored. -/
structure Reg where
  email : String
  verificationOTP : JVal
deriving DecidableEq, Repr

/-- The persistent store: user documents, pending registrations, and the
next fresh document id. -/
structure St where
  users : List User
  regs : List Reg
  nextId : Nat
deriving DecidableEq, Repr

/-- The query `User.findOne({ email })`. -/
def findUserByEmail (st : St) (e : String) : Option User :=
  st.users.find? (fun u => u.email == e)

/-- The query `User.findById(id)`. -/
def findUserById (st : St) (id : Nat) : Option User :=
  st.users.find? (fun u => u.id == id)

/-- The query `User.findOne({ $or: [{ email }, { username }] })`. -/
def findUserByEmailOrUsername (st : St) (s : String) : Option User :=
  st.users.find? (fun u => u.email == s || u.username == s)

/-- Rewrite the user with the given id in place (covers both
document.save() after field mutation and findByIdAndUpdate). -/
def updateUserById (st : St) (id : Nat) (f : User → User) : St :=
  { st with users := st.users.map (fun u => if u.id == id then f u else u) }

/-- The call `Registration.findOneAndDelete({ email })`: removes the first pending
registration stored for the email, if any. -/
def deleteRegByEmail (st : St) (e : String) : St :=
  { st with regs := st.regs.eraseP (fun r => r.email == e) }

/-- The JS `String.prototype.trim`: strip whitespace from both ends (written over
the character list so that it evaluates by kernel reduction). -/
def jsTrim (s : String) : String :=
  ⟨((s.toList.dropWhile Char.isWhitespace).reverse.dropWhile Char.isWhitespace).reverse⟩

/-- Lowercase one ASCII character. -/
def lowerChar (c : Char) : Char :=
  if c.isUpper then Char.ofNat (c.toNat + 32) else c

/-- The JS `String.prototype.toLowerCase` restricted to ASCII, as the mongoose
lowercase setter and `username.toLowerCase()` use it. -/
def jsToLower (s : String) : String := ⟨s.toList.map lowerChar⟩

/-- JS falsiness of an optional body string: undefined and the empty string
are falsy. -/
def falsy (s : Option String) : Bool :=
  match s with
  | none => true
  | some v => v == ""

/-- The guard `!x || !x.trim()` used on required body strings. -/
def falsyOrBlank (s : Option String) : Bool :=
  falsy s || jsTrim (s.getD "") == ""

/-- The email format test `/^[^\s@]+@[^\s@]+\.[^\s@]+$/`: exactly one at
sign, no whitespace, a nonempty local part, and a dot in the interior of
the domain part. -/
def emailPatternTest (s : String) : Bool :=
  let cs := s.toList
  cs.count '@' == 1 &&
  cs.all (fun c => !c.isWhitespace) &&
  (cs.takeWhile (fun c => c != '@')).length > 0 &&
  ((((cs.dropWhile (fun c => c != '@')).drop 1).drop 1).dropLast.contains '.')

/-- One character of the username allow-list `[a-zA-Z0-9-_]`. -/
def usernameChar (c : Char) : Bool :=
  c.isAlpha || c.isDigit || c == '-' || c == '_'

/-- The test `usernamePattern.test(username)`.  When the body omits the field, JS
coerces undefined to the string "undefined", which matches the pattern. -/
def usernamePatternTest (username : Option String) : Bool :=
  let s := match username with
    | none => "undefined"
    | some v => v
  s.length > 0 && s.toList.all usernameChar

/-- The required-field guard of registerUser:
`[fullName, username, password].some((field) => field?.trim() === "")`.
Optional chaining makes an omitted field compare as undefined, never equal
to the empty string. -/
def hasEmptyField (fullName username password : Option String) : Bool :=
  [fullName, username, password].any (fun f => f.map jsTrim == some "")

/-- Modelled from the spec: generateToken of utils/jwt.js (not among the
sources) — the Token Codec issue operation, signing `{ data: email }` with
the single workflow secret and ~20 minute ttl. -/
def generateToken (email : String) (now : Nat) : Token :=
  { secret := jwtSecret, payload := .emailData email, exp := now + workflowTtl }

/-- Modelled from the spec: verifyToken of utils/jwt.js — the Token Codec
verify operation: Invalid on a wrong signature, Expired past the ttl, and
otherwise the decoded `.data` field (absent on non-workflow payloads). -/
def verifyToken (t : Token) (now : Nat) : Except ApiErr (Option String) :=
  if t.secret != jwtSecret then .error { status := 401, msg := "Invalid token" }
  else if t.exp < now then .error { status := 401, msg := "Token expired" }
  else match t.payload with
    | .emailData e => .ok (some e)
    | _ => .ok none

/-- The call `jwt.verify(token, secret)` as used directly by refreshAccessToken:
rejects a wrong signature or an expired token, otherwise yields the
payload. -/
def jwtVerify (t : Token) (secret : String) (now : Nat) : Except String Payload :=
  if t.secret != secret then .error "invalid signature"
  else if t.exp < now then .error "jwt expired"
  else .ok t.payload

/-- The access `decoded?._id` on a verified payload. -/
def payloadId (p : Payload) : Option Nat :=
  match p with
  | .emailData _ => none
  | .accessP id _ _ _ => some id
  | .refreshP id => some id

/-- The token gate repeated verbatim at the head of every workflow confirm
step: require an incoming token, verify it, extract `decoded.data`, and
fail when the decoded email is falsy. -/
def requireEmailToken (env : Env) (tok : Option Token) : Except ApiErr String :=
  match tok with
  | none => .error { status := 400, msg := "Token is required" }
  | some t =>
    match verifyToken t env.now with
    | .error e => .error e
    | .ok none => .error { status := 400, msg := "Something went wrong while decoding the email." }
    | .ok (some email) =>
      if email == "" then
        .error { status := 400, msg := "Something went wrong while decoding the email." }
      else .ok email

/-- The view returned after `.select("-password -refreshToken")`. -/
structure Redacted where
  id : Nat
  username : String
  email : String
  fullName : String
  bio : String
deriving DecidableEq, Repr

/-- Strip password and refresh token from a user document. -/
def redact (u : User) : Redacted :=
  { id := u.id, username := u.username, email := u.email
    fullName := u.fullName, bio := u.bio }

/-- emailRegistration (beginRegistration): validate the email, fail
Conflict when a user already owns it, replace any pending registration for
it, store a fresh OTP, send the mail, and issue the workflow token. -/
def emailRegistration (env : Env) (st : St) (email : Option String) :
    St × Except ApiErr Token :=
  match email with
  | none => (st, .error { status := 400, msg := "Email is required." })
  | some e =>
    if jsTrim e == "" then (st, .error { status := 400, msg := "Email is required." })
    else if !emailPatternTest e then
      (st, .error { status := 400, msg := "Invalid email address format." })
    else if (findUserByEmail st e).isSome then
      (st, .error { status := 409, msg := "This email is already linked to an user." })
    else
      -- Registration.findOneAndDelete, Registration.create, then the OTP
      -- is stored on the new record and saved before the mail is sent.
      let st1 := deleteRegByEmail st e
      let st2 := { st1 with regs := st1.regs ++ [{ email := e, verificationOTP := .num (genOtp env) }] }
      if !env.mailOk then
        (st2, .error { status := 500, msg := "Error while sending verification email: mail failed" })
      else
        (st2, .ok (generateToken e env.now))

/-- verifyEmail (confirmRegistrationOtp): verify the workflow token, look
the pending registration up by email and submitted OTP, delete it, and
issue the verified-email token. -/
def verifyEmail (env : Env) (st : St) (tok : Option Token) (otp : JVal) :
    St × Except ApiErr (String × Token) :=
  match requireEmailToken env tok with
  | .error e => (st, .error e)
  | .ok email =>
    match st.regs.find? (fun r => r.email == email && mongoMatch r.verificationOTP otp) with
    | none => (st, .error { status := 400, msg := "Invalid or expired OTP." })
    | some _ =>
      (deleteRegByEmail st email, .ok (email, generateToken email env.now))

/-- registerUser (completeRegistration): verify the verified-email token,
run the required-field and username-pattern guards, run the two existing
user checks (both of which query by email in the source), and create the
user with the hashed password, returning the redacted document.  An
omitted username makes `username.toLowerCase()` throw; an omitted fullName
or password fails the schema's required validation at create time. -/
def registerUser (env : Env) (st : St) (tok : Option Token)
    (fullName username password bio : Option String) :
    St × Except ApiErr Redacted :=
  match requireEmailToken env tok with
  | .error e => (st, .error e)
  | .ok email =>
    if hasEmptyField fullName username password then
      (st, .error { status := 400, msg := "All fields are required!" })
    else if !usernamePatternTest username then
      (st, .error { status := 400, msg := "Invalid username: only letters, numbers, hyphens, and underscores are allowed." })
    else if (findUserByEmail st email).isSome then
      (st, .error { status := 409, msg := "User with email already exists" })
    else if (findUserByEmail st email).isSome then
      (st, .error { status := 409, msg := "User with username already exists" })
    else
      match username with
      | none => (st, .error { status := 500, msg := "TypeError: Cannot read properties of undefined" })
      | some un =>
        match fullName, password with
        | some fn, some pw =>
          let u : User :=
            { id := st.nextId, username := jsToLower un, email := email
              fullName := fn
              bio := bio.getD "Welcome to my profile! Excited to connect and share with everyone."
              avatar := "", coverImage := ""
              password := bcryptHash pw
              refreshToken := none
              forgotPasswordOTP := .undef, forgotPasswordOtpExpiry := .undef
              updateEmailOTP := .undef, updateEmailOTPExpiry := .undef }
          ({ st with users := st.users ++ [u], nextId := st.nextId + 1 }, .ok (redact u))
        | _, _ => (st, .error { status := 500, msg := "ValidationError" })

/-- generateAccessAndRefreshTokens: load the user, mint both tokens from
the two session secrets, persist the refresh token on the user.  Its
internal try/catch collapses every failure to one 500. -/
def generateAccessAndRefreshTokens (env : Env) (st : St) (uid : Nat) :
    St × Except ApiErr (Token × Token) :=
  match findUserById st uid with
  | none => (st, .error { status := 500, msg := "Something went wrong while generating access and refresh tokens" })
  | some user =>
    let a : Token := { secret := accessSecret
                       payload := .accessP user.id user.email user.username user.fullName
                       exp := env.now + accessTtl }
    let r : Token := { secret := refreshSecret, payload := .refreshP user.id
                       exp := env.now + refreshTtl }
    (updateUserById st uid (fun u => { u with refreshToken := some r }), .ok (a, r))

/-- loginUser: require both fields, look the user up by email or username,
check the password against the stored hash, then issue and persist a fresh
token pair. -/
def loginUser (env : Env) (st : St) (usernameOrEmail password : Option String) :
    St × Except ApiErr (Redacted × Token × Token) :=
  if falsy usernameOrEmail then
    (st, .error { status := 400, msg := "email or username is required!" })
  else if falsy password then
    (st, .error { status := 400, msg := "password is required!" })
  else
    match findUserByEmailOrUsername st (usernameOrEmail.getD "") with
    | none => (st, .error { status := 404, msg := "User not found, please check username or password!" })
    | some user =>
      if !bcryptCompare (password.getD "") user.password then
        (st, .error { status := 404, msg := "Password is incorrect!" })
      else
        match generateAccessAndRefreshTokens env st user.id with
        | (st1, .error e) => (st1, .error e)
        | (st1, .ok (a, r)) =>
          match findUserById st1 user.id with
          | none => (st1, .error { status := 500, msg := "User vanished" })
          | some u1 => (st1, .ok (redact u1, a, r))

/-- logoutUser: `findByIdAndUpdate(id, { $set: { refreshToken: undefined } })`.
Mongoose (v6 and later) strips keys whose value is undefined from update
documents, so the update this sends is an empty $set: the stored refresh
token is left in place, and the handler only clears the cookies. -/
def logoutUser (st : St) (uid : Nat) : St × Except ApiErr Unit :=
  (updateUserById st uid (fun u => u), .ok ())

/-- refreshAccessToken: verify the incoming refresh token against the
refresh secret, load the user named by its `_id`, reject when the token
does not textually match the stored one, otherwise rotate both tokens.
The surrounding try/catch turns every failure into a 401. -/
def refreshAccessToken (env : Env) (st : St) (tok : Option Token) :
    St × Except ApiErr (Token × Token) :=
  match tok with
  | none => (st, .error { status := 401, msg := "Unauthorized request!" })
  | some t =>
    match jwtVerify t refreshSecret env.now with
    | .error m => (st, .error { status := 401, msg := m })
    | .ok p =>
      match payloadId p with
      | none => (st, .error { status := 401, msg := "Invalid Refresh Token!" })
      | some id =>
        match findUserById st id with
        | none => (st, .error { status := 401, msg := "Invalid Refresh Token!" })
        | some user =>
          if some t != user.refreshToken then
            (st, .error { status := 401, msg := "Refresh Token is expired or used." })
          else
            match generateAccessAndRefreshTokens env st user.id with
            | (st1, .error e) => (st1, .error { status := 401, msg := e.msg })
            | (st1, .ok pair) => (st1, .ok pair)

/-- The successful-confirmation write of confirmEmailChange: overwrite the
email, null out the pending-email-change OTP and its expiry. -/
def clearUpdateEmail (newEmail : String) (u : User) : User :=
  { u with email := newEmail, updateEmailOTP := JVal.null, updateEmailOTPExpiry := JVal.null }

/-- The successful-confirmation write of confirmResetOtp: null out the
forgot-password OTP and its expiry. -/
def clearForgotPassword (u : User) : User :=
  { u with forgotPasswordOTP := JVal.null, forgotPasswordOtpExpiry := JVal.null }

/-- The write of beginReset: store the fresh OTP and its 15 minute expiry
on the user. -/
def setForgotPasswordOtp (env : Env) (u : User) : User :=
  { u with forgotPasswordOTP := JVal.num (genOtp env), forgotPasswordOtpExpiry := JVal.num (env.now + 15 * 60 * 1000) }

/-- verifyUpdateEmailOTP (confirmEmailChange): verify the update-email
token, load the authenticated user, compare the stored OTP to the
submitted one with strict inequality, check the stored expiry, then write
the new email and null out both OTP fields. -/
def verifyUpdateEmailOTP (env : Env) (st : St) (authUserId : Nat)
    (tok : Option Token) (otp : JVal) : St × Except ApiErr Unit :=
  match requireEmailToken env tok with
  | .error e => (st, .error e)
  | .ok newEmail =>
    match findUserById st authUserId with
    | none => (st, .error { status := 400, msg := "Unauthorized request." })
    | some user =>
      if user.updateEmailOTP != otp then
        (st, .error { status := 400, msg := "Invalid OTP." })
      else if jsDateLt user.updateEmailOTPExpiry env.now then
        (st, .error { status := 400, msg := "OTP has expired." })
      else
        (updateUserById st authUserId (clearUpdateEmail newEmail), .ok ())

/-- sendForgotPasswordOTP (beginReset): look the user up by email or
username, store a fresh OTP and a 15 minute expiry on the user, send the
mail, and issue the forgot-password token. -/
def sendForgotPasswordOTP (env : Env) (st : St) (usernameOrEmail : Option String) :
    St × Except ApiErr (String × Token) :=
  if falsyOrBlank usernameOrEmail then
    (st, .error { status := 400, msg := "Email or username is required." })
  else
    match findUserByEmailOrUsername st (usernameOrEmail.getD "") with
    | none => (st, .error { status := 404, msg := "User not found." })
    | some user =>
      let st1 := updateUserById st user.id (setForgotPasswordOtp env)
      if !env.mailOk then
        (st1, .error { status := 500, msg := "Error while sending forgot password email: mail failed" })
      else
        (st1, .ok (user.email, generateToken user.email env.now))

/-- verifyForgotPasswordOTP (confirmResetOtp): verify the forgot-password
token, load the user by the decoded email, compare the stored OTP with
strict inequality, check the stored expiry, and only then null out both
OTP fields and issue the verified-reset token. -/
def verifyForgotPasswordOTP (env : Env) (st : St) (tok : Option Token)
    (otp : JVal) : St × Except ApiErr Token :=
  match requireEmailToken env tok with
  | .error e => (st, .error e)
  | .ok email =>
    match findUserByEmail st email with
    | none => (st, .error { status := 400, msg := "Session expired." })
    | some user =>
      if user.forgotPasswordOTP != otp then
        (st, .error { status := 400, msg := "Invalid OTP." })
      else if jsDateLt user.forgotPasswordOtpExpiry env.now then
        (st, .error { status := 400, msg := "OTP has expired." })
      else
        (updateUserById st user.id clearForgotPassword,
         .ok (generateToken user.email env.now))

/-- forgotPassword (completeReset): verify the verified-reset token,
require a nonblank new password, load the user by the decoded email, and
overwrite the password (hashed by the pre-save hook). -/
def forgotPassword (env : Env) (st : St) (tok : Option Token)
    (newPassword : Option String) : St × Except ApiErr Unit :=
  match requireEmailToken env tok with
  | .error e => (st, .error e)
  | .ok email =>
    if falsyOrBlank newPassword then
      (st, .error { status := 400, msg := "Password is required." })
    else
      match findUserByEmail st email with
      | none => (st, .error { status := 400, msg := "Forgot password token is invalid or expired." })
      | some user =>
        (updateUserById st user.id (fun u => { u with password := bcryptHash (newPassword.getD "") }),
         .ok ())

/-! ## Helper lemmas and concrete fixtures -/

deriving instance DecidableEq for Except

/-- Mapping a function that does not change the truth of the predicate
commutes with find?. -/
theorem find?_map_congr {α : Type} (l : List α) (g : α → α) (p : α → Bool)
    (hp : ∀ u, p (g u) = p u) :
    (l.map g).find? p = (l.find? p).map g := by
  induction l with
  | nil => rfl
  | cons a t ih =>
    by_cases h : p a = true
    · rw [List.map_cons, List.find?_cons_of_pos _ (by rw [hp]; exact h),
        List.find?_cons_of_pos _ h]
      rfl
    · rw [List.map_cons, List.find?_cons_of_neg _ (by rw [hp]; exact h),
        List.find?_cons_of_neg _ h, ih]

/-- Looking a user up by id after an id-preserving in-place update yields
the updated version of the user the lookup found before. -/
theorem findUserById_updateUserById (st : St) (uid : Nat) (f : User → User)
    (hid : ∀ u, (f u).id = u.id) :
    findUserById (updateUserById st uid f) uid
      = (findUserById st uid).map (fun u => if u.id == uid then f u else u) := by
  unfold findUserById updateUserById
  exact find?_map_congr st.users _ _
    (fun u => by by_cases h : (u.id == uid) = true <;> simp [h, hid])

/-- Looking a user up by email after an update that preserves every email
yields the updated version of the user the lookup found before. -/
theorem findUserByEmail_updateUserById (st : St) (uid : Nat) (f : User → User)
    (e : String) (he : ∀ u, (f u).email = u.email) :
    findUserByEmail (updateUserById st uid f) e
      = (findUserByEmail st e).map (fun u => if u.id == uid then f u else u) := by
  unfold findUserByEmail updateUserById
  exact find?_map_congr st.users _ _
    (fun u => by by_cases h : (u.id == uid) = true <;> simp [h, he])

/-- When pending registrations carry pairwise distinct emails, erasing the
registration for one email leaves no record with that email behind. -/
theorem eraseP_email_ne (l : List Reg) (e : String)
    (hpw : l.Pairwise (fun a b => a.email ≠ b.email)) :
    ∀ r ∈ l.eraseP (fun r => r.email == e), ¬ r.email = e := by
  induction l with
  | nil => simp
  | cons a t ih =>
    rw [List.pairwise_cons] at hpw
    obtain ⟨ha, ht⟩ := hpw
    by_cases hae : a.email = e
    · rw [List.eraseP_cons_of_pos (by simp [hae])]
      intro r hr hre
      exact ha r hr (by rw [hae, hre])
    · rw [List.eraseP_cons_of_neg (by simp [hae])]
      intro r hr hre
      rcases List.mem_cons.mp hr with rfl | hr'
      · exact hae hre
      · exact ih ht r hr' hre

/-- A nonempty email survives the format test. -/
theorem emailPatternTest_ne_empty {e : String} (h : emailPatternTest e = true) :
    e ≠ "" := by
  intro he
  rw [he] at h
  exact absurd h (by decide)

/-- A freshly issued workflow token passes the token gate at the moment of
issue and decodes back to its email. -/
theorem requireEmailToken_generateToken (env : Env) (e : String) (he : e ≠ "") :
    requireEmailToken env (some (generateToken e env.now)) = .ok e := by
  unfold requireEmailToken verifyToken generateToken
  simp [he, Nat.not_lt.mpr (Nat.le_add_right env.now workflowTtl)]

/-- Every failure of the token codec carries status 401. -/
theorem verifyToken_error_status (t : Token) (now : Nat) (e : ApiErr)
    (h : verifyToken t now = .error e) : e.status = 401 := by
  unfold verifyToken at h
  split at h
  · cases h; rfl
  · split at h
    · cases h; rfl
    · split at h <;> cases h

/-- The token gate never produces the required-fields error. -/
theorem requireEmailToken_ne_allFields (env : Env) (tok : Option Token) :
    requireEmailToken env tok
      ≠ .error { status := 400, msg := "All fields are required!" } := by
  unfold requireEmailToken
  match tok with
  | none => simp
  | some t =>
    cases hv : verifyToken t env.now with
    | error e =>
      simp only [hv]
      intro h
      rw [Except.error.injEq] at h
      have := verifyToken_error_status t env.now e hv
      rw [h] at this
      exact absurd this (by decide)
    | ok data =>
      match data with
      | none =>
        simp only [hv]
        decide
      | some email =>
        simp only [hv]
        split
        · decide
        · simp

/-- Fixture: a request environment with the clock at 1000 ms, random draw
0 and a working mail collaborator. -/
def envA : Env := { now := 1000, rand := 0, mailOk := true }

/-- Fixture: the same environment with a failing mail collaborator. -/
def envNoMail : Env := { now := 1000, rand := 0, mailOk := false }

/-- Fixture: a stored user whose password is the hash of "right". -/
def uAlice : User :=
  { id := 1, username := "alice", email := "a@x.com", fullName := "Alice A"
    bio := "b", avatar := "", coverImage := ""
    password := bcryptHash "right", refreshToken := none
    forgotPasswordOTP := .undef, forgotPasswordOtpExpiry := .undef
    updateEmailOTP := .undef, updateEmailOTPExpiry := .undef }

/-- Fixture: a user holding an expired forgot-password OTP 123456. -/
def uBob : User :=
  { uAlice with
    id := 3, username := "bob", email := "b@x.com"
    forgotPasswordOTP := .num 123456, forgotPasswordOtpExpiry := .num 500 }

/-- Fixture: a user holding an unexpired pending-email-change OTP 654321. -/
def uCarol : User :=
  { uAlice with
    id := 5, username := "carol", email := "c@x.com"
    updateEmailOTP := .num 654321, updateEmailOTPExpiry := .num 999999 }

/-- Fixture: a user holding an unexpired forgot-password OTP 222222. -/
def uDave : User :=
  { uAlice with
    id := 7, username := "dave", email := "d@x.com"
    forgotPasswordOTP := .num 222222, forgotPasswordOtpExpiry := .num 99999999 }

/-- Fixture: an empty store. -/
def stEmpty : St := { users := [], regs := [], nextId := 1 }

/-- Fixture: the store holding only uAlice. -/
def stAlice : St := { users := [uAlice], regs := [], nextId := 2 }

/-- Fixture: the store holding only uBob. -/
def stBob : St := { users := [uBob], regs := [], nextId := 4 }

/-- Fixture: the store holding only uCarol. -/
def stCarol : St := { users := [uCarol], regs := [], nextId := 6 }

/-- Fixture: the store holding only uDave. -/
def stDave : St := { users := [uDave], regs := [], nextId := 8 }

/-- Fixture: a pending registration with OTP 111111 for n@x.com. -/
def stPending : St :=
  { users := [], regs := [{ email := "n@x.com", verificationOTP := .num 111111 }], nextId := 1 }

/-- Fixture: a refresh token for user 1, far from expiry at time 1000. -/
def rTokA : Token :=
  { secret := refreshSecret, payload := .refreshP 1, exp := 1000000000 }

/-- Fixture: a second valid refresh token for user 1, issued later than
rTokA, hence textually different. -/
def rTokB : Token :=
  { secret := refreshSecret, payload := .refreshP 1, exp := 1000000005 }

/-- Fixture: the store where uAlice currently holds rTokA. -/
def stLogged : St :=
  { users := [{ uAlice with refreshToken := some rTokA }], regs := [], nextId := 2 }


/-! ## Claim C7 -/

/-- C7: a cryptographically valid, unexpired refresh token that does not
textually match the one currently stored on the user it names is rejected
with 401 Unauthorized, and the state is returned untouched: no rotation or
persistence happens. -/
theorem refresh_token_reuse_rejected (env : Env) (st : St) (t : Token)
    (uid : Nat) (user : User)
    (hsec : t.secret = refreshSecret)
    (hexp : ¬ t.exp < env.now)
    (hpay : t.payload = .refreshP uid)
    (hfind : findUserById st uid = some user)
    (hmis : user.refreshToken ≠ some t) :
    refreshAccessToken env st (some t)
      = (st, .error { status := 401, msg := "Refresh Token is expired or used." }) := by
  unfold refreshAccessToken
  have hv : jwtVerify t refreshSecret env.now = Except.ok t.payload := by
    unfold jwtVerify
    rw [hsec]
    simp [hexp]
  have hb : (some t != user.refreshToken) = true := bne_iff_ne.mpr (Ne.symm hmis)
  simp only [hv, hpay, payloadId, hfind, hb, if_true]

/-- Witness for C7 at a concrete store: uAlice holds rTokA, presenting the
valid but different rTokB fails with 401 and leaves the store as it was. -/
theorem refresh_token_reuse_rejected_witness :
    refreshAccessToken envA stLogged (some rTokB)
      = (stLogged, .error { status := 401, msg := "Refresh Token is expired or used." }) :=
  refresh_token_reuse_rejected envA stLogged rTokB 1
    { uAlice with refreshToken := some rTokA }
    (by decide) (by decide) (by decide) (by decide) (by decide)

/-! ## Claim C2 -/

/-- C2: evaluating the code at the failing input.  The logout update
document `{ $set: { refreshToken: undefined } }` loses its only key to the
undefined-stripping of the ODM, so after logoutUser the user still stores
the refresh token it held before, and replaying that previously issued
refresh token passes the textual-match check and refreshes successfully —
it does not become invalid as the claim states. -/
theorem logout_leaves_refresh_token_valid :
    (findUserById (logoutUser stLogged 1).1 1).map (fun u => u.refreshToken)
      = some (some rTokA) ∧
    ((refreshAccessToken envA (logoutUser stLogged 1).1 (some rTokA)).2).isOk = true := by
  decide

/-! ## Claim C6 -/

/-- C6 counterexample: with uBob's forgot-password OTP 123456 expired at
time 500 and the clock at 1000, submitting the matching OTP fails with the
OTP-expired error, but the store is returned unchanged — the OTP fields
still hold 123456, they are not cleared as the claim states. -/
theorem expired_otp_not_cleared_cex :
    verifyForgotPasswordOTP envA stBob (some (generateToken "b@x.com" 1000)) (.num 123456)
      = (stBob, .error { status := 400, msg := "OTP has expired." }) ∧
    (findUserByEmail stBob "b@x.com").map (fun u => u.forgotPasswordOTP)
      = some (.num 123456) := by decide

/-- C6 amended: when the stored forgot-password OTP expiry is past and the
submitted OTP matches, confirmResetOtp fails with the OTP-expired error
(status 400) and the user's OTP and expiry fields are NOT cleared: the
expiry check throws before the reset statements run, so the state is
returned exactly as it was. -/
theorem verifyForgotPasswordOTP_expired_keeps_otp (env : Env) (st : St)
    (tok : Option Token) (email : String) (user : User) (n d : Nat)
    (htok : requireEmailToken env tok = .ok email)
    (hfind : findUserByEmail st email = some user)
    (hotp : user.forgotPasswordOTP = .num n)
    (hexp : user.forgotPasswordOtpExpiry = .num d)
    (hlt : d < env.now) :
    verifyForgotPasswordOTP env st tok (.num n)
      = (st, .error { status := 400, msg := "OTP has expired." }) := by
  unfold verifyForgotPasswordOTP
  simp only [htok, hfind, hotp, hexp]
  simp [jsDateLt, hlt]

/-- Witness for the amended C6 on the concrete uBob store. -/
theorem verifyForgotPasswordOTP_expired_keeps_otp_witness :
    verifyForgotPasswordOTP envA stBob (some (generateToken "b@x.com" 1000)) (.num 123456)
      = (stBob, .error { status := 400, msg := "OTP has expired." }) :=
  verifyForgotPasswordOTP_expired_keeps_otp envA stBob
    (some (generateToken "b@x.com" 1000)) "b@x.com" uBob 123456 500
    (by decide) (by decide) (by decide) (by decide) (by decide)

/-! ## Claim C10 -/

/-- C10: both confirmEmailChange and confirmResetOtp compare the stored
numeric OTP to the submitted body value with strict (type-sensitive)
inequality, so an OTP submitted as a string — any string, in particular the
exact digits of the stored code — fails with the Invalid-OTP error. -/
theorem strict_otp_comparison_rejects_string :
    (∀ env st uid tok s email user n,
      requireEmailToken env tok = .ok email →
      findUserById st uid = some user →
      user.updateEmailOTP = .num n →
      verifyUpdateEmailOTP env st uid tok (.str s)
        = (st, .error { status := 400, msg := "Invalid OTP." })) ∧
    (∀ env st tok s email user n,
      requireEmailToken env tok = .ok email →
      findUserByEmail st email = some user →
      user.forgotPasswordOTP = .num n →
      verifyForgotPasswordOTP env st tok (.str s)
        = (st, .error { status := 400, msg := "Invalid OTP." })) := by
  constructor
  · intro env st uid tok s email user n htok hfind hotp
    unfold verifyUpdateEmailOTP
    have hb : (JVal.num n != JVal.str s) = true := rfl
    simp only [htok, hfind, hotp, hb, if_true]
  · intro env st tok s email user n htok hfind hotp
    unfold verifyForgotPasswordOTP
    have hb : (JVal.num n != JVal.str s) = true := rfl
    simp only [htok, hfind, hotp, hb, if_true]

/-- Witness for C10: the exact digits of the stored codes, submitted as
strings, are rejected as Invalid OTP for both operations. -/
theorem strict_otp_comparison_rejects_string_witness :
    verifyUpdateEmailOTP envA stCarol 5 (some (generateToken "c2@x.com" 1000)) (.str "654321")
      = (stCarol, .error { status := 400, msg := "Invalid OTP." }) ∧
    verifyForgotPasswordOTP envA stDave (some (generateToken "d@x.com" 1000)) (.str "222222")
      = (stDave, .error { status := 400, msg := "Invalid OTP." }) :=
  ⟨strict_otp_comparison_rejects_string.1 envA stCarol 5
      (some (generateToken "c2@x.com" 1000)) "654321" "c2@x.com" uCarol 654321
      (by decide) (by decide) (by decide),
   strict_otp_comparison_rejects_string.2 envA stDave
      (some (generateToken "d@x.com" 1000)) "222222" "d@x.com" uDave 222222
      (by decide) (by decide) (by decide)⟩

/-! ## Claim C4 -/

/-- C4 counterexample: on a store holding uAlice (password hash of
"right"), logging in with the correct username and the wrong password
fails with status 404, not 401 Unauthorized. -/
theorem login_wrong_password_status_cex :
    loginUser envA stAlice (some "alice") (some "wrong")
      = (stAlice, .error { status := 404, msg := "Password is incorrect!" }) ∧
    (404 : Nat) ≠ 401 := by decide

/-- C4 amended: a wrong password fails with status 404 and message
"Password is incorrect!" (the source throws 404, not a 401 Unauthorized),
and an identifier matching no user's email or username fails NotFound
(404, "User not found, please check username or password!"). -/
theorem loginUser_failure_modes :
    (∀ env st uoe pw user,
      falsy uoe = false → falsy pw = false →
      findUserByEmailOrUsername st (uoe.getD "") = some user →
      bcryptCompare (pw.getD "") user.password = false →
      loginUser env st uoe pw
        = (st, .error { status := 404, msg := "Password is incorrect!" })) ∧
    (∀ env st uoe pw,
      falsy uoe = false → falsy pw = false →
      findUserByEmailOrUsername st (uoe.getD "") = none →
      loginUser env st uoe pw
        = (st, .error { status := 404, msg := "User not found, please check username or password!" })) := by
  constructor
  · intro env st uoe pw user h1 h2 hfind hpw
    unfold loginUser
    simp only [h1, h2, hfind, hpw, Bool.false_eq_true, if_false, Bool.not_false, if_true]
  · intro env st uoe pw h1 h2 hfind
    unfold loginUser
    simp only [h1, h2, hfind, Bool.false_eq_true, if_false]

/-- Witness for the amended C4 on the concrete uAlice store. -/
theorem loginUser_failure_modes_witness :
    loginUser envA stAlice (some "alice") (some "wrong")
      = (stAlice, .error { status := 404, msg := "Password is incorrect!" }) ∧
    loginUser envA stAlice (some "nobody") (some "x")
      = (stAlice, .error { status := 404, msg := "User not found, please check username or password!" }) :=
  ⟨loginUser_failure_modes.1 envA stAlice (some "alice") (some "wrong") uAlice
      (by decide) (by decide) (by decide) (by decide),
   loginUser_failure_modes.2 envA stAlice (some "nobody") (some "x")
      (by decide) (by decide) (by decide)⟩

/-! ## Claim C3 -/

/-- C3: the source checks the username conflict with a query on the email
field (a copy-paste slip contradicted by its own error message), so a
registration whose username already belongs to an existing user — with a
fresh email — succeeds and creates a second user with the same username
instead of failing Conflict. -/
theorem registerUser_duplicate_username_created :
    ((registerUser envA stAlice (some (generateToken "new@x.com" 1000))
        (some "Alice A") (some "alice") (some "secret1") none).2).isOk = true ∧
    ((registerUser envA stAlice (some (generateToken "new@x.com" 1000))
        (some "Alice A") (some "alice") (some "secret1") none).1.users.filter
          (fun u => u.username == "alice")).length = 2 := by decide

/-! ## Claim C1 -/

/-- C1 counterexample: the token returned by beginRegistration for a fresh
email is accepted by completeRegistration as the verified-email proof
token — the whole step succeeds and creates the user, skipping OTP
verification entirely. -/
theorem registration_token_accepted_cross_purpose_cex :
    (emailRegistration envA stEmpty (some "n@x.com")).2
      = Except.ok (generateToken "n@x.com" 1000) ∧
    ((registerUser envA (emailRegistration envA stEmpty (some "n@x.com")).1
        (some (generateToken "n@x.com" 1000))
        (some "New N") (some "newbie") (some "pw") none).2).isOk = true := by decide

/-! ## Claim C5 -/

/-- C5 counterexample: beginRegistration with a failing mail collaborator
fails the step, yet the persistent state is not as it was before the step
began — the PendingRegistration record with its fresh OTP has been
committed. -/
theorem mail_failure_partial_commit_cex :
    ((emailRegistration envNoMail stEmpty (some "n@x.com")).2).isOk = false ∧
    (emailRegistration envNoMail stEmpty (some "n@x.com")).1 ≠ stEmpty := by decide

/-- C5 amended: when the mail send fails after the OTP was stored, both
beginRegistration and beginReset abort with a 500 error, but the commit is
partial: the PendingRegistration record (resp. the user's forgot-password
OTP and expiry fields) keeps the freshly stored OTP. -/
theorem mail_failure_aborts_with_stored_otp :
    (∀ env st e,
      env.mailOk = false →
      jsTrim e ≠ "" →
      emailPatternTest e = true →
      findUserByEmail st e = none →
      (emailRegistration env st (some e)).2
          = .error { status := 500, msg := "Error while sending verification email: mail failed" } ∧
      ({ email := e, verificationOTP := .num (genOtp env) } : Reg)
          ∈ (emailRegistration env st (some e)).1.regs) ∧
    (∀ env st s user,
      env.mailOk = false →
      falsyOrBlank s = false →
      findUserByEmailOrUsername st (s.getD "") = some user →
      (sendForgotPasswordOTP env st s).2
          = .error { status := 500, msg := "Error while sending forgot password email: mail failed" } ∧
      ∃ u1, findUserById (sendForgotPasswordOTP env st s).1 user.id = some u1 ∧
        u1.forgotPasswordOTP = .num (genOtp env) ∧
        u1.forgotPasswordOtpExpiry = .num (env.now + 15 * 60 * 1000)) := by
  constructor
  · intro env st e hmail htrim hpat hfind
    have h1 : (jsTrim e == "") = false := beq_eq_false_iff_ne.mpr htrim
    refine ⟨?_, ?_⟩ <;> simp [emailRegistration, h1, hpat, hfind, hmail]
  · intro env st s user hmail hfb hfind
    have hfind' : st.users.find?
        (fun u => u.email == s.getD "" || u.username == s.getD "") = some user := hfind
    have hmem : user ∈ st.users := List.mem_of_find?_eq_some hfind' 
    have hex : (findUserById st user.id).isSome = true := by
      unfold findUserById
      exact List.find?_isSome.mpr ⟨user, hmem, by simp⟩
    obtain ⟨u0, hu0⟩ := Option.isSome_iff_exists.mp hex
    have hu0' : st.users.find? (fun v => v.id == user.id) = some u0 := hu0
    have hb0 : (u0.id == user.id) = true :=
      List.find?_some (p := fun v => v.id == user.id) (a := u0) (l := st.users) hu0'
    have hupd : findUserById (updateUserById st user.id (setForgotPasswordOtp env)) user.id
        = some (setForgotPasswordOtp env u0) := by
      rw [findUserById_updateUserById st user.id (setForgotPasswordOtp env) (fun v => rfl), hu0]
      simp only [Option.map_some', hb0, if_true]
    constructor
    · simp [sendForgotPasswordOTP, hfb, hfind, hmail]
    · refine ⟨setForgotPasswordOtp env u0, ?_, rfl, rfl⟩
      show findUserById (sendForgotPasswordOTP env st s).1 user.id = _
      simp only [sendForgotPasswordOTP, hfb, hfind, hmail, Bool.not_false, if_true,
        Bool.false_eq_true, if_false]
      exact hupd

/-- Witness for the amended C5 at concrete stores. -/
theorem mail_failure_aborts_with_stored_otp_witness :
    (emailRegistration envNoMail stEmpty (some "n@x.com")).2
      = .error { status := 500, msg := "Error while sending verification email: mail failed" } ∧
    (sendForgotPasswordOTP envNoMail stAlice (some "alice")).2
      = .error { status := 500, msg := "Error while sending forgot password email: mail failed" } :=
  ⟨(mail_failure_aborts_with_stored_otp.1 envNoMail stEmpty "n@x.com"
      (by decide) (by decide) (by decide) (by decide)).1,
   (mail_failure_aborts_with_stored_otp.2 envNoMail stAlice (some "alice") uAlice
      (by decide) (by decide) (by decide)).1⟩

/-! ## Claim C9 -/

/-- C9: the required-field guard of completeRegistration fires exactly when
one of fullName, username, password is present and trims to the empty
string; a field omitted entirely (undefined) never triggers it, so such a
request passes this check rather than failing there. -/
theorem required_check_ignores_missing_fields :
    (∀ fN un pw, hasEmptyField fN un pw = true ↔
      (fN.map jsTrim = some "" ∨ un.map jsTrim = some "" ∨ pw.map jsTrim = some "")) ∧
    (∀ env st tok fN pw bio,
      fN.map jsTrim ≠ some "" → pw.map jsTrim ≠ some "" →
      (registerUser env st tok fN none pw bio).2
        ≠ .error { status := 400, msg := "All fields are required!" }) := by
  constructor
  · intro fN un pw
    simp [hasEmptyField]
  · intro env st tok fN pw bio h1 h2
    unfold registerUser
    cases hq : requireEmailToken env tok with
    | error e =>
      simp only [hq]
      intro h
      rw [Except.error.injEq] at h
      exact requireEmailToken_ne_allFields env tok (hq.trans (by rw [h]))
    | ok email =>
      have hhe : hasEmptyField fN none pw = false := by
        rw [Bool.eq_false_iff]
        intro hcon
        simp only [hasEmptyField, List.any_cons, List.any_nil, Bool.or_false,
          Bool.or_eq_true, beq_iff_eq, Option.map_none'] at hcon
        rcases hcon with hx | hx | hx
        · exact h1 hx
        · exact absurd hx (by simp)
        · exact h2 hx
      have hun : usernamePatternTest none = true := by decide
      simp only [hq, hhe, hun, Bool.not_true, Bool.false_eq_true, if_false]
      by_cases hse : (findUserByEmail st email).isSome = true
      · simp only [hse, if_true]
        decide
      · have hse' : (findUserByEmail st email).isSome = false := by
          cases hfe : (findUserByEmail st email).isSome
          · rfl
          · exact absurd hfe hse
        simp only [hse', Bool.false_eq_true, if_false]
        decide

/-- Witness for C9: a request omitting the username passes the
required-field guard (and fails much later, at the create call). -/
theorem required_check_ignores_missing_fields_witness :
    (registerUser envA stEmpty (some (generateToken "n@x.com" 1000))
        (some "New N") none (some "pw") none).2
      ≠ .error { status := 400, msg := "All fields are required!" } :=
  required_check_ignores_missing_fields.2 envA stEmpty
    (some (generateToken "n@x.com" 1000)) (some "New N") (some "pw") none
    (by decide) (by decide)

/-- Inverting a successful beginRegistration: the email was well-formed and
unused, the users are untouched, and the returned token is the workflow
token for the email issued at the current clock. -/
theorem emailRegistration_ok_inv (env : Env) (st st1 : St) (e : String) (t : Token)
    (h : emailRegistration env st (some e) = (st1, Except.ok t)) :
    emailPatternTest e = true ∧ findUserByEmail st e = none ∧
    st1.users = st.users ∧ t = generateToken e env.now := by
  simp only [emailRegistration] at h
  by_cases h1 : (jsTrim e == "") = true
  · rw [if_pos h1] at h
    simp at h
  · rw [if_neg h1] at h
    by_cases h2 : (!emailPatternTest e) = true
    · rw [if_pos h2] at h
      simp at h
    · rw [if_neg h2] at h
      by_cases h3 : (findUserByEmail st e).isSome = true
      · rw [if_pos h3] at h
        simp at h
      · rw [if_neg h3] at h
        by_cases h4 : (!env.mailOk) = true
        · simp only [if_pos h4] at h
          simp at h
        · simp only [if_neg h4] at h
          have hpat : emailPatternTest e = true := by
            cases hp : emailPatternTest e
            · rw [hp] at h2
              exact absurd rfl h2
            · rfl
          have hnone : findUserByEmail st e = none := by
            cases hn : findUserByEmail st e
            · rfl
            · rw [hn] at h3
              exact absurd rfl h3
          have hfst := congrArg Prod.fst h
          have hsnd := congrArg Prod.snd h
          simp only [] at hfst hsnd
          refine ⟨hpat, hnone, ?_, ?_⟩
          · rw [← hfst]
            rfl
          · rw [Except.ok.injEq] at hsnd
            exact hsnd.symm

/-- C1 amended: the three email workflows all issue their proof tokens
through one single-secret codec with the same payload shape, so workflow
tokens are interchangeable across purposes — in particular the token
returned by beginRegistration is accepted by completeRegistration, which
then succeeds outright; only the session tokens (access and refresh) use
distinct secrets, and those do fail across purposes. -/
theorem workflow_tokens_share_one_codec :
    (∀ env st st1 t e fN un pw,
      emailRegistration env st (some e) = (st1, Except.ok t) →
      hasEmptyField (some fN) (some un) (some pw) = false →
      usernamePatternTest (some un) = true →
      ((registerUser env st1 (some t) (some fN) (some un) (some pw) none).2).isOk = true) ∧
    (∀ p ex now, (verifyToken { secret := refreshSecret, payload := p, exp := ex } now).isOk = false) ∧
    (∀ p ex now, (verifyToken { secret := accessSecret, payload := p, exp := ex } now).isOk = false) ∧
    (∀ em ex now,
      (jwtVerify { secret := jwtSecret, payload := .emailData em, exp := ex }
        refreshSecret now).isOk = false) := by
  refine ⟨?_, fun p ex now => rfl, fun p ex now => rfl, fun em ex now => rfl⟩
  intro env st st1 t e fN un pw hreg hf hu
  obtain ⟨hpat, hconf, husers, ht⟩ := emailRegistration_ok_inv env st st1 e t hreg
  subst ht
  have he : e ≠ "" := emailPatternTest_ne_empty hpat
  have hconf1 : findUserByEmail st1 e = none := by
    unfold findUserByEmail
    rw [husers]
    exact hconf
  unfold registerUser
  rw [requireEmailToken_generateToken env e he]
  simp only [hf, hu, hconf1, Bool.false_eq_true, if_false, Bool.not_true,
    Option.isSome_none, Except.isOk, Except.toBool]

/-- Witness for the amended C1: the registration token for n@x.com is
accepted end to end by completeRegistration, and a refresh-secret token is
rejected by the workflow codec. -/
theorem workflow_tokens_share_one_codec_witness :
    ((registerUser envA (emailRegistration envA stEmpty (some "n@x.com")).1
        (some (generateToken "n@x.com" 1000))
        (some "New N") (some "newbie") (some "pw") none).2).isOk = true ∧
    (verifyToken { secret := refreshSecret, payload := .refreshP 1, exp := 2000 } 1000).isOk
      = false :=
  ⟨workflow_tokens_share_one_codec.1 envA stEmpty
      (emailRegistration envA stEmpty (some "n@x.com")).1
      (generateToken "n@x.com" 1000) "n@x.com" "New N" "newbie" "pw"
      (by decide) (by decide) (by decide),
   workflow_tokens_share_one_codec.2.1 (.refreshP 1) 2000 1000⟩

/-! ## Claim C8 -/

/-- C8: an OTP consumed successfully can never be accepted again.  For
confirmRegistrationOtp the PendingRegistration is deleted, so the replay
finds no matching record (given the data-model invariant of at most one
pending registration per email); for confirmEmailChange and
confirmResetOtp the stored OTP is nulled out, so the strict comparison
rejects any replayed OTP value other than null (and null is not an OTP:
the fields are only ever set to numbers and cleared to null together with
an already-past expiry). -/
theorem consumed_otp_never_accepted_again :
    (∀ env st st1 tok otp out,
      st.regs.Pairwise (fun a b => a.email ≠ b.email) →
      verifyEmail env st tok otp = (st1, Except.ok out) →
      (verifyEmail env st1 tok otp).2
        = .error { status := 400, msg := "Invalid or expired OTP." }) ∧
    (∀ env st st1 uid tok otp,
      otp ≠ JVal.null →
      verifyUpdateEmailOTP env st uid tok otp = (st1, Except.ok ()) →
      (verifyUpdateEmailOTP env st1 uid tok otp).2
        = .error { status := 400, msg := "Invalid OTP." }) ∧
    (∀ env st st1 tok otp out,
      otp ≠ JVal.null →
      verifyForgotPasswordOTP env st tok otp = (st1, Except.ok out) →
      (verifyForgotPasswordOTP env st1 tok otp).2
        = .error { status := 400, msg := "Invalid OTP." }) := by
  refine ⟨?_, ?_, ?_⟩
  · intro env st st1 tok otp out hpw h
    unfold verifyEmail at h
    cases hq : requireEmailToken env tok with
    | error e =>
      simp only [hq] at h
      simp at h
    | ok email =>
      simp only [hq] at h
      cases hfq : st.regs.find?
          (fun r => r.email == email && mongoMatch r.verificationOTP otp) with
      | none =>
        simp only [hfq] at h
        simp at h
      | some reg =>
        simp only [hfq] at h
        have hst : st1 = deleteRegByEmail st email := (congrArg Prod.fst h).symm
        subst hst
        unfold verifyEmail
        simp only [hq]
        have hfind2 : (deleteRegByEmail st email).regs.find?
            (fun r => r.email == email && mongoMatch r.verificationOTP otp) = none := by
          apply List.find?_eq_none.mpr
          intro r hr
          have hne : ¬ r.email = email := eraseP_email_ne st.regs email hpw r hr
          simp [hne]
        simp only [hfind2]
  · intro env st st1 uid tok otp hnull h
    unfold verifyUpdateEmailOTP at h
    cases hq : requireEmailToken env tok with
    | error e =>
      simp only [hq] at h
      simp at h
    | ok newEmail =>
      simp only [hq] at h
      cases hfq : findUserById st uid with
      | none =>
        simp only [hfq] at h
        simp at h
      | some user =>
        simp only [hfq] at h
        by_cases hotp : (user.updateEmailOTP != otp) = true
        · rw [if_pos hotp] at h
          simp at h
        · rw [if_neg hotp] at h
          by_cases hexp : jsDateLt user.updateEmailOTPExpiry env.now = true
          · rw [if_pos hexp] at h
            simp at h
          · rw [if_neg hexp] at h
            have hst : st1 = updateUserById st uid (clearUpdateEmail newEmail) :=
              (congrArg Prod.fst h).symm
            subst hst
            have hfq' : st.users.find? (fun v => v.id == uid) = some user := hfq
            have hb0 : (user.id == uid) = true :=
              List.find?_some (p := fun v => v.id == uid) (a := user) (l := st.users) hfq'
            unfold verifyUpdateEmailOTP
            simp only [hq]
            have hupd : findUserById (updateUserById st uid (clearUpdateEmail newEmail)) uid
                = some (clearUpdateEmail newEmail user) := by
              rw [findUserById_updateUserById st uid (clearUpdateEmail newEmail)
                (fun v => rfl), hfq]
              simp only [Option.map_some', hb0, if_true]
            simp only [hupd]
            have hno : ((clearUpdateEmail newEmail user).updateEmailOTP != otp) = true :=
              bne_iff_ne.mpr (Ne.symm hnull)
            simp only [hno, if_true]
  · intro env st st1 tok otp out hnull h
    unfold verifyForgotPasswordOTP at h
    cases hq : requireEmailToken env tok with
    | error e =>
      simp only [hq] at h
      simp at h
    | ok email =>
      simp only [hq] at h
      cases hfq : findUserByEmail st email with
      | none =>
        simp only [hfq] at h
        simp at h
      | some user =>
        simp only [hfq] at h
        by_cases hotp : (user.forgotPasswordOTP != otp) = true
        · rw [if_pos hotp] at h
          simp at h
        · rw [if_neg hotp] at h
          by_cases hexp : jsDateLt user.forgotPasswordOtpExpiry env.now = true
          · rw [if_pos hexp] at h
            simp at h
          · rw [if_neg hexp] at h
            have hst : st1 = updateUserById st user.id clearForgotPassword :=
              (congrArg Prod.fst h).symm
            subst hst
            have hb0 : (user.id == user.id) = true := beq_self_eq_true user.id
            unfold verifyForgotPasswordOTP
            simp only [hq]
            have hupd : findUserByEmail (updateUserById st user.id clearForgotPassword) email
                = some (clearForgotPassword user) := by
              rw [findUserByEmail_updateUserById st user.id clearForgotPassword email
                (fun v => rfl), hfq]
              simp only [Option.map_some', hb0, if_true]
            simp only [hupd]
            have hno : ((clearForgotPassword user).forgotPasswordOTP != otp) = true :=
              bne_iff_ne.mpr (Ne.symm hnull)
            simp only [hno, if_true]

/-- Witness for C8: three concrete successful consumptions whose immediate
replays fail. -/
theorem consumed_otp_never_accepted_again_witness :
    (verifyEmail envA
        (verifyEmail envA stPending (some (generateToken "n@x.com" 1000)) (.num 111111)).1
        (some (generateToken "n@x.com" 1000)) (.num 111111)).2
      = .error { status := 400, msg := "Invalid or expired OTP." } ∧
    (verifyUpdateEmailOTP envA
        (verifyUpdateEmailOTP envA stCarol 5 (some (generateToken "c2@x.com" 1000)) (.num 654321)).1
        5 (some (generateToken "c2@x.com" 1000)) (.num 654321)).2
      = .error { status := 400, msg := "Invalid OTP." } ∧
    (verifyForgotPasswordOTP envA
        (verifyForgotPasswordOTP envA stDave (some (generateToken "d@x.com" 1000)) (.num 222222)).1
        (some (generateToken "d@x.com" 1000)) (.num 222222)).2
      = .error { status := 400, msg := "Invalid OTP." } :=
  ⟨consumed_otp_never_accepted_again.1 envA stPending
      (verifyEmail envA stPending (some (generateToken "n@x.com" 1000)) (.num 111111)).1
      (some (generateToken "n@x.com" 1000)) (.num 111111)
      ("n@x.com", generateToken "n@x.com" 1000)
      (by decide) (by decide),
   consumed_otp_never_accepted_again.2.1 envA stCarol
      (verifyUpdateEmailOTP envA stCarol 5 (some (generateToken "c2@x.com" 1000)) (.num 654321)).1
      5 (some (generateToken "c2@x.com" 1000)) (.num 654321)
      (by decide) (by decide),
   consumed_otp_never_accepted_again.2.2 envA stDave
      (verifyForgotPasswordOTP envA stDave (some (generateToken "d@x.com" 1000)) (.num 222222)).1
      (some (generateToken "d@x.com" 1000)) (.num 222222)
      (generateToken "d@x.com" 1000)
      (by decide) (by decide)⟩

end Fuzion
